import Mathlib

/-!
Shallow embedding of base/watchers/dbus/testobject.go: a simulated
message-bus object used as a test fixture. Go interface values are
modelled by the dynamic Value type, Go errors by Option String carrying
the message, and panics by Option results, where none means the
operation panicked. Collaborators that live outside this file's source,
such as name expansion and match-option normalization, are modelled from
the spec and marked as such.
-/

set_option maxHeartbeats 1000000

/-- Dynamic value: models the untyped variadic arguments, return values
and property values that the test object traffics in. The variant
constructor models a dbus Variant wrapper; dict models a map from string
keys to values. -/
inductive Value : Type where
  | str : String → Value
  | int : Int → Value
  | variant : Value → Value
  | dict : List (String × Value) → Value

/-- Models dbus.MakeVariant: wraps a value in a tagged variant container. -/
def MakeVariant (v : Value) : Value := Value.variant v

/-- A method handler, as registered via On: takes the argument list and
returns the reply body together with an optional error message. -/
def Handler : Type := List Value → List Value × Option String

/-- Models the dbus.Call record produced by Call, Go and the match
operations. The Done channel, which only carries the record itself, is
omitted. -/
structure DbusCall where
  destination : String
  path : String
  method : String
  args : List Value
  body : List Value
  err : Option String

/-- A signal handed to the bus fan-out by Emit: expanded name, emitting
service identity, object path and arguments. -/
structure Signal where
  name : String
  svcId : Nat
  path : String
  args : List Value

/-- A normalized match-option set: a mapping from option key to value. -/
abbrev MatchMap : Type := List (String × String)

/-- Association-list update with Go map write semantics: overwrite the
binding for the key if present, otherwise append it. -/
def mapSet {A : Type} (m : List (String × A)) (k : String) (a : A) :
    List (String × A) :=
  match m with
  | [] => [(k, a)]
  | (q, b) :: rest => if k = q then (k, a) :: rest else (q, b) :: mapSet rest k a

/-- Association-list lookup: Go map read. -/
def mapGet? {A : Type} (m : List (String × A)) (k : String) : Option A :=
  match m with
  | [] => none
  | (q, b) :: rest => if k = q then some b else mapGet? rest k

/-- Go map read of a slice-valued map: a missing key reads as the empty
slice. -/
def mapGetD (m : List (String × List MatchMap)) (k : String) : List MatchMap :=
  (mapGet? m k).getD []

/-- Key-sorted insertion used to normalize option maps, so that
structural equality of normalized maps coincides with map equality. -/
def mapInsertSorted (m : MatchMap) (k v : String) : MatchMap :=
  match m with
  | [] => [(k, v)]
  | (q, w) :: rest =>
    if k = q then (k, v) :: rest
    else if k < q then (k, v) :: (q, w) :: rest
    else (q, w) :: mapInsertSorted rest k v

/-- Modelled from the spec: dbusMatchOptionMap, defined outside src/, is
"a match-option normalization function producing a comparable mapping
from option key to value"; modelled as insertion into a key-sorted
association list. -/
def dbusMatchOptionMap (options : List (String × String)) : MatchMap :=
  options.foldl (fun m kv => mapInsertSorted m kv.1 kv.2) []

/-- Modelled from the spec: the service owning the object, defined
outside src/; only its identity and registration state are relevant. -/
structure TestBusService where
  id : Nat
  registered : Bool

/-- Modelled from the spec: the connection an object may be bound to,
defined outside src/; only its open or closed state and its signal-match
table are relevant. -/
structure TestBusConnection where
  closed : Bool
  matchTable : List (String × List MatchMap)

/-- The test bus object: testBusObject together with the optional
connection reference from TestBusObject. -/
structure TestBusObject where
  svc : TestBusService
  dest : String
  path : String
  props : List (String × Value)
  calls : List (String × Handler)
  conn : Option TestBusConnection

/-- Modelled from the spec: name expansion, defined outside src/,
resolves a destination-relative short name into a fully qualified one; a
name that already contains a dot is taken as fully qualified. Operations
below are parametric in the expansion function; this concrete model
instantiates them in witnesses. -/
def expand (dest name : String) : String :=
  if (name.data.contains '.') then name else dest ++ "." ++ name

/-- Modelled from the spec: the standard properties-changed signal name;
the propsChanged constant is defined outside src/. -/
def propsChanged : String := "org.freedesktop.DBus.Properties.PropertiesChanged"

/-- Modelled from the spec: the well-known bus peer name used by the
match operations; the bus constant is defined outside src/. -/
def bus : String := "org.freedesktop.DBus"

/-- Modelled from the spec: the object path of the bus peer; the busPath
constant is defined outside src/. -/
def busPath : String := "/org/freedesktop/DBus"

/-- Modelled from the spec: TestBusService.checkRegistered panics when
the service is unregistered; true means the check passes. -/
def TestBusService.checkRegistered (s : TestBusService) : Bool := s.registered

/-- Modelled from the spec: testBusConnection.checkOpen panics when the
connection is closed; true means the check passes. -/
def TestBusConnection.checkOpen (c : TestBusConnection) : Bool := !c.closed

/-- check: passes only if the service is registered and, when the object
is bound to a connection, that connection is open. A failed check is a
panic, so operations below return none in that case. -/
def TestBusObject.check (t : TestBusObject) : Bool :=
  t.svc.checkRegistered &&
    (match t.conn with
     | none => true
     | some c => c.checkOpen)

/-- Call: checks liveness, expands the method name, and looks up the
handler; an absent handler yields a no-such-method error on the call
record, a present handler supplies the body and error. -/
def TestBusObject.Call (exp : String → String → String) (t : TestBusObject)
    (method : String) (flags : Nat) (args : List Value) : Option DbusCall :=
  if t.check then
    let m := exp t.dest method
    some (match mapGet? t.calls m with
      | none =>
        { destination := t.dest, path := t.path, method := m, args := args,
          body := [], err := some ("No such method: " ++ m) }
      | some h =>
        { destination := t.dest, path := t.path, method := m, args := args,
          body := (h args).1, err := (h args).2 })
  else none

/-- CallWithContext acts like Call; the context is ignored. -/
def TestBusObject.CallWithContext (exp : String → String → String)
    (t : TestBusObject) (ctx : Unit) (method : String) (flags : Nat)
    (args : List Value) : Option DbusCall :=
  TestBusObject.Call exp t method flags args

/-- The pending asynchronous delivery spawned by Go: after delay time
units it pushes the result of the deferred Call onto the channel, none
meaning that deferred Call panicked. -/
structure PendingDelivery where
  delay : Nat
  result : Option DbusCall

/-- What the pending delivery has pushed onto the channel once elapsed
time units have passed: nothing before the delay, the deferred record
afterwards. -/
def PendingDelivery.deliveredAt (p : PendingDelivery) (elapsed : Nat) :
    Option (Option DbusCall) :=
  if p.delay ≤ elapsed then some p.result else none

/-- Go: returns a nil call handle immediately and schedules the
equivalent Call to be delivered on the channel after the fixed 505 unit
delay. -/
def TestBusObject.Go (exp : String → String → String) (t : TestBusObject)
    (method : String) (flags : Nat) (args : List Value) :
    Option DbusCall × PendingDelivery :=
  (none, { delay := 505, result := TestBusObject.Call exp t method flags args })

/-- GoWithContext acts like Go; the context is ignored. -/
def TestBusObject.GoWithContext (exp : String → String → String)
    (t : TestBusObject) (ctx : Unit) (method : String) (flags : Nat)
    (args : List Value) : Option DbusCall × PendingDelivery :=
  TestBusObject.Go exp t method flags args

/-- matchCallResult: the call record returned by the match operations. -/
def matchCallResult (exp : String → String → String) (method : String)
    (err : Option String) : DbusCall :=
  { destination := bus, path := busPath, method := exp bus method,
    args := [Value.str "should not matter"], body := [], err := err }

/-- The filter option keys accepted by AddMatchSignal: path,
path_namespace, sender, or any key starting with arg. -/
def isAllowedMatchKey (k : String) : Bool :=
  k == "path" || k == "path_namespace" || k == "sender" ||
    ("arg".data).isPrefixOf k.data

/-- AddMatchSignal: checks liveness, validates every option key against
the allowed set, and on success appends the normalized option set to the
connection's match list for interface.member. -/
def TestBusObject.AddMatchSignal (exp : String → String → String)
    (t : TestBusObject) (iface member : String)
    (options : List (String × String)) : Option (DbusCall × TestBusObject) :=
  let name := iface ++ "." ++ member
  if t.check then
    let optMap := dbusMatchOptionMap options
    match optMap.find? (fun kv => !isAllowedMatchKey kv.1) with
    | some kv =>
      some (matchCallResult exp "AddMatch"
        (some ("Unsupported match type: " ++ kv.1)), t)
    | none =>
      match t.conn with
      | none => none
      | some c =>
        some (matchCallResult exp "AddMatch" none,
          { t with conn := some { c with
              matchTable := mapSet c.matchTable name
                (mapGetD c.matchTable name ++ [optMap]) } })
  else none

/-- Removes the first entry structurally equal to x, or reports that none
matches. -/
def removeFirst (l : List MatchMap) (x : MatchMap) : Option (List MatchMap) :=
  match l with
  | [] => none
  | m :: rest =>
    if m = x then some rest else (removeFirst rest x).map (fun r => m :: r)

/-- RemoveMatchSignal: checks liveness, then removes the first entry in
the connection's match list for interface.member that is structurally
equal to the normalized option set, failing if none matches. -/
def TestBusObject.RemoveMatchSignal (exp : String → String → String)
    (t : TestBusObject) (iface member : String)
    (options : List (String × String)) : Option (DbusCall × TestBusObject) :=
  let name := iface ++ "." ++ member
  if t.check then
    match t.conn with
    | none => none
    | some c =>
      match removeFirst (mapGetD c.matchTable name) (dbusMatchOptionMap options) with
      | some ms =>
        some (matchCallResult exp "RemoveMatch" none,
          { t with conn := some { c with matchTable := mapSet c.matchTable name ms } })
      | none =>
        some (matchCallResult exp "RemoveMatch" (some "Match not found"), t)
  else none

/-- GetProperty: checks liveness, then returns the property value under
the literal key, wrapped in a variant, or a no-such-property error. -/
def TestBusObject.GetProperty (t : TestBusObject) (p : String) :
    Option (Except String Value) :=
  if t.check then
    some (match mapGet? t.props p with
      | some val => Except.ok (MakeVariant val)
      | none => Except.error ("No such property: " ++ p))
  else none

/-- Destination: liveness-checked accessor for the destination. -/
def TestBusObject.Destination (t : TestBusObject) : Option String :=
  if t.check then some t.dest else none

/-- Path: liveness-checked accessor for the object path. -/
def TestBusObject.Path (t : TestBusObject) : Option String :=
  if t.check then some t.path else none

/-- Emit: expands the signal name and hands the signal to the bus
fan-out, tagged with the emitting service identity and object path. Emit
performs no liveness check. -/
def TestBusObject.Emit (exp : String → String → String) (t : TestBusObject)
    (name : String) (args : List Value) : Signal :=
  { name := exp t.dest name, svcId := t.svc.id, path := t.path, args := args }

/-- SetProperty: checks liveness, stores the value under the expanded
property name, and, only when the signal flag is set, emits one
properties-changed signal carrying the changed entry as a variant-wrapped
map entry. Returns the updated object and the list of emitted signals. -/
def TestBusObject.SetProperty (exp : String → String → String)
    (t : TestBusObject) (prop : String) (value : Value) (signal : Bool) :
    Option (TestBusObject × List Signal) :=
  if t.check then
    let p := exp t.dest prop
    some ({ t with props := mapSet t.props p value },
      if signal then
        [TestBusObject.Emit exp t propsChanged
          [Value.str t.dest, Value.dict [(p, MakeVariant value)]]]
      else [])
  else none

/-- On: registers a handler under the expanded method name, overwriting
any previous registration. On performs no liveness check. -/
def TestBusObject.On (exp : String → String → String) (t : TestBusObject)
    (method : String) (handler : Handler) : TestBusObject :=
  { t with calls := mapSet t.calls (exp t.dest method) handler }

/-! Helper lemmas about the association-list maps and the liveness check. -/

theorem mapGet_mapSet_self {A : Type} (m : List (String × A)) (k : String)
    (a : A) : mapGet? (mapSet m k a) k = some a := by
  induction m with
  | nil => simp [mapSet, mapGet?]
  | cons kv rest ih =>
    obtain ⟨q, b⟩ := kv
    by_cases h : k = q
    · simp [mapSet, mapGet?, h]
    · simp [mapSet, mapGet?, h, ih]

theorem check_update_calls (t : TestBusObject) (cs : List (String × Handler)) :
    TestBusObject.check { t with calls := cs } = t.check := rfl

theorem check_update_props (t : TestBusObject) (ps : List (String × Value)) :
    TestBusObject.check { t with props := ps } = t.check := rfl

theorem check_conn_matchTable (t : TestBusObject) (c : TestBusConnection)
    (mt : List (String × List MatchMap)) (h : t.conn = some c) :
    TestBusObject.check { t with conn := some { c with matchTable := mt } } =
      t.check := by
  simp [TestBusObject.check, h, TestBusConnection.checkOpen]

/-! Concrete fixtures used by witnesses and counterexamples. -/

/-- A live, open connection with an empty match table. -/
def liveConn : TestBusConnection := { closed := false, matchTable := [] }

/-- A live object bound to a live connection. -/
def t0 : TestBusObject :=
  { svc := { id := 1, registered := true }, dest := "test", path := "/test",
    props := [], calls := [], conn := some liveConn }

/-- An object whose owning service has been unregistered. -/
def tDead : TestBusObject :=
  { svc := { id := 1, registered := false }, dest := "test", path := "/test",
    props := [], calls := [], conn := some liveConn }

/-- A live object obtained directly from a service, bound to no
connection. -/
def tUnbound : TestBusObject :=
  { svc := { id := 1, registered := true }, dest := "test", path := "/test",
    props := [], calls := [], conn := none }

/-- A handler echoing its arguments back with no error. -/
def h0 : Handler := fun args => (args, none)

/-- Claim C1: for any handler h registered via On for method m, Call of m
on a live object returns a call record whose return values and error are
exactly the values and error produced by h on the given arguments,
unchanged. -/
theorem call_returns_handler_result (exp : String → String → String)
    (t : TestBusObject) (m : String) (h : Handler) (flags : Nat)
    (args : List Value) (hlive : t.check = true) :
    TestBusObject.Call exp (TestBusObject.On exp t m h) m flags args =
      some { destination := t.dest, path := t.path, method := exp t.dest m,
             args := args, body := (h args).1, err := (h args).2 } := by
  have hl : (TestBusObject.On exp t m h).check = true := hlive
  unfold TestBusObject.Call
  rw [hl]
  simp [TestBusObject.On, mapGet_mapSet_self]

/-- Witness for C1 at a concrete live object, method and arguments. -/
theorem call_returns_handler_result_witness :
    TestBusObject.Call expand (TestBusObject.On expand t0 "Ping" h0) "Ping" 0
        [Value.int 5] =
      some { destination := "test", path := "/test",
             method := expand "test" "Ping", args := [Value.int 5],
             body := [Value.int 5], err := none } :=
  call_returns_handler_result expand t0 "Ping" h0 0 [Value.int 5] rfl

/-- Claim C2: Call of a method whose expanded name has no registered
handler returns, on a live object, a call record carrying a
no-such-method failure that mentions the expanded method name. -/
theorem call_unregistered_no_such_method (exp : String → String → String)
    (t : TestBusObject) (m : String) (flags : Nat) (args : List Value)
    (hlive : t.check = true)
    (habs : mapGet? t.calls (exp t.dest m) = none) :
    ∃ c : DbusCall,
      TestBusObject.Call exp t m flags args = some c ∧
      c.err = some ("No such method: " ++ exp t.dest m) ∧
      ∃ pre : String, c.err = some (pre ++ exp t.dest m) := by
  have hcall : TestBusObject.Call exp t m flags args =
      some { destination := t.dest, path := t.path, method := exp t.dest m,
             args := args, body := [],
             err := some ("No such method: " ++ exp t.dest m) } := by
    unfold TestBusObject.Call
    rw [hlive]
    simp [habs]
  exact ⟨_, hcall, rfl, "No such method: ", rfl⟩

/-- Witness for C2 at a concrete live object and unregistered method. -/
theorem call_unregistered_no_such_method_witness :
    ∃ c : DbusCall,
      TestBusObject.Call expand t0 "Missing" 0 [] = some c ∧
      c.err = some ("No such method: " ++ expand "test" "Missing") ∧
      ∃ pre : String, c.err = some (pre ++ expand "test" "Missing") :=
  call_unregistered_no_such_method expand t0 "Missing" 0 [] rfl rfl

/-- Claim C9: Call on a live object always returns a call record whose
destination, path, method and args fields are the object's destination
and path, the expanded method name and the given arguments, both when a
handler exists and in the no-such-method case; failure is indicated only
through the record's error field. -/
theorem call_record_fields (exp : String → String → String)
    (t : TestBusObject) (m : String) (flags : Nat) (args : List Value)
    (hlive : t.check = true) :
    ∃ c : DbusCall,
      TestBusObject.Call exp t m flags args = some c ∧
      c.destination = t.dest ∧ c.path = t.path ∧
      c.method = exp t.dest m ∧ c.args = args := by
  cases hh : mapGet? t.calls (exp t.dest m) with
  | none =>
    refine ⟨{ destination := t.dest, path := t.path, method := exp t.dest m,
              args := args, body := [],
              err := some ("No such method: " ++ exp t.dest m) },
            ?_, rfl, rfl, rfl, rfl⟩
    unfold TestBusObject.Call
    rw [hlive]
    simp [hh]
  | some h =>
    refine ⟨{ destination := t.dest, path := t.path, method := exp t.dest m,
              args := args, body := (h args).1, err := (h args).2 },
            ?_, rfl, rfl, rfl, rfl⟩
    unfold TestBusObject.Call
    rw [hlive]
    simp [hh]

/-- Witness for C9 at a concrete live object. -/
theorem call_record_fields_witness :
    ∃ c : DbusCall,
      TestBusObject.Call expand t0 "Missing" 7 [Value.str "x"] = some c ∧
      c.destination = t0.dest ∧ c.path = t0.path ∧
      c.method = expand t0.dest "Missing" ∧ c.args = [Value.str "x"] :=
  call_record_fields expand t0 "Missing" 7 [Value.str "x"] rfl

/-- Claim C3: Go returns a nil call handle immediately; the record later
delivered on the channel is not delivered before the fixed 505 time-unit
delay has elapsed, and equals what a direct Call with the same arguments
produces. -/
theorem go_async_delivery (exp : String → String → String)
    (t : TestBusObject) (m : String) (flags : Nat) (args : List Value) :
    (TestBusObject.Go exp t m flags args).1 = none ∧
    (∀ e : Nat, e < 505 →
      (TestBusObject.Go exp t m flags args).2.deliveredAt e = none) ∧
    (∀ e : Nat, 505 ≤ e →
      (TestBusObject.Go exp t m flags args).2.deliveredAt e =
        some (TestBusObject.Call exp t m flags args)) := by
  refine ⟨rfl, ?_, ?_⟩
  · intro e he
    have hnot : ¬ (505 ≤ e) := by omega
    simp [TestBusObject.Go, PendingDelivery.deliveredAt, hnot]
  · intro e he
    simp [TestBusObject.Go, PendingDelivery.deliveredAt, he]

/-- Witness for C3 at a concrete object, a time before the delay and one
at the delay. -/
theorem go_async_delivery_witness :
    (TestBusObject.Go expand t0 "Ping" 0 []).1 = none ∧
    (TestBusObject.Go expand t0 "Ping" 0 []).2.deliveredAt 100 = none ∧
    (TestBusObject.Go expand t0 "Ping" 0 []).2.deliveredAt 505 =
      some (TestBusObject.Call expand t0 "Ping" 0 []) :=
  ⟨(go_async_delivery expand t0 "Ping" 0 []).1,
   (go_async_delivery expand t0 "Ping" 0 []).2.1 100 (by decide),
   (go_async_delivery expand t0 "Ping" 0 []).2.2 505 (by decide)⟩

/-- Counterexample to C4 as stated: SetProperty stores under the expanded
property name while GetProperty reads the literal key, so with the
spec-modelled expansion a short property name written via SetProperty is
not visible to GetProperty under the same name: the read fails with
no-such-property instead of returning the variant-wrapped value. -/
theorem setProperty_getProperty_cex :
    ∃ t1 : TestBusObject,
      TestBusObject.SetProperty expand t0 "Color" (Value.int 3) false =
        some (t1, []) ∧
      TestBusObject.GetProperty t1 "Color" =
        some (Except.error "No such property: Color") ∧
      TestBusObject.GetProperty t1 "Color" ≠
        some (Except.ok (MakeVariant (Value.int 3))) := by
  refine ⟨{ t0 with props := [("test.Color", Value.int 3)] }, rfl, rfl, ?_⟩
  intro hcontra
  have h2 : TestBusObject.GetProperty
      { t0 with props := [("test.Color", Value.int 3)] } "Color" =
      some (Except.error "No such property: Color") := rfl
  rw [h2] at hcontra
  simp at hcontra

/-- Claim C4 (amended): on a live object, SetProperty with the signal
flag off stores the value under the expanded property name and emits
nothing, so GetProperty of the expanded name returns the value wrapped
in a tagged variant (the literal name only works when expansion leaves
it unchanged); GetProperty of an absent key fails with a
no-such-property error naming that key. -/
theorem setProperty_getProperty_expanded (exp : String → String → String)
    (t : TestBusObject) (p : String) (v : Value) (hlive : t.check = true) :
    (∃ t1 : TestBusObject,
      TestBusObject.SetProperty exp t p v false = some (t1, []) ∧
      TestBusObject.GetProperty t1 (exp t.dest p) =
        some (Except.ok (MakeVariant v))) ∧
    (∀ q : String, mapGet? t.props q = none →
      TestBusObject.GetProperty t q =
        some (Except.error ("No such property: " ++ q))) := by
  constructor
  · refine ⟨{ t with props := mapSet t.props (exp t.dest p) v }, ?_, ?_⟩
    · unfold TestBusObject.SetProperty
      rw [hlive]
      simp
    · have hl2 : TestBusObject.check
          { t with props := mapSet t.props (exp t.dest p) v } = true := hlive
      unfold TestBusObject.GetProperty
      rw [hl2]
      simp [mapGet_mapSet_self]
  · intro q hq
    unfold TestBusObject.GetProperty
    rw [hlive]
    simp [hq]

/-- Witness for the amended C4 at a concrete live object and a concrete
absent key. -/
theorem setProperty_getProperty_expanded_witness :
    (∃ t1 : TestBusObject,
      TestBusObject.SetProperty expand t0 "Color" (Value.int 3) false =
        some (t1, []) ∧
      TestBusObject.GetProperty t1 (expand t0.dest "Color") =
        some (Except.ok (MakeVariant (Value.int 3)))) ∧
    TestBusObject.GetProperty t0 "nope" =
      some (Except.error ("No such property: " ++ "nope")) :=
  ⟨(setProperty_getProperty_expanded expand t0 "Color" (Value.int 3) rfl).1,
   (setProperty_getProperty_expanded expand t0 "Color" (Value.int 3)
      rfl).2 "nope" rfl⟩

/-- Claim C5: on a live object, SetProperty stores the value under the
expanded name and emits a properties-changed signal if and only if the
signal flag is set; when set, exactly one signal is emitted and its
payload carries the single changed property as a variant-wrapped map
entry. -/
theorem setProperty_signal_emission (exp : String → String → String)
    (t : TestBusObject) (p : String) (v : Value) (sig : Bool)
    (hlive : t.check = true) :
    TestBusObject.SetProperty exp t p v sig =
      some ({ t with props := mapSet t.props (exp t.dest p) v },
        if sig then
          [{ name := exp t.dest propsChanged, svcId := t.svc.id,
             path := t.path,
             args := [Value.str t.dest,
               Value.dict [(exp t.dest p, MakeVariant v)]] }]
        else []) ∧
    mapGet? (mapSet t.props (exp t.dest p) v) (exp t.dest p) = some v := by
  constructor
  · unfold TestBusObject.SetProperty
    rw [hlive]
    simp [TestBusObject.Emit]
  · exact mapGet_mapSet_self t.props (exp t.dest p) v

/-- Witness for C5 at a concrete live object with the signal flag set. -/
theorem setProperty_signal_emission_witness :
    TestBusObject.SetProperty expand t0 "Color" (Value.int 3) true =
      some ({ t0 with props := [("test.Color", Value.int 3)] },
        [{ name := propsChanged, svcId := 1, path := "/test",
           args := [Value.str "test",
             Value.dict [("test.Color", MakeVariant (Value.int 3))]] }]) ∧
    mapGet? [("test.Color", Value.int 3)] "test.Color" =
      some (Value.int 3) :=
  setProperty_signal_emission expand t0 "Color" (Value.int 3) true rfl

/-! Helper lemmas for match-list removal. -/

theorem removeFirst_append_self (l : List MatchMap) (x : MatchMap)
    (h : x ∉ l) : removeFirst (l ++ [x]) x = some l := by
  induction l with
  | nil => simp [removeFirst]
  | cons m rest ih =>
    have hne : ¬ (m = x) := fun he => h (he ▸ List.mem_cons_self m rest)
    have hrest : x ∉ rest := fun hx => h (List.mem_cons_of_mem m hx)
    simp [removeFirst, hne, ih hrest]

theorem removeFirst_eq_none (l : List MatchMap) (x : MatchMap)
    (h : x ∉ l) : removeFirst l x = none := by
  induction l with
  | nil => rfl
  | cons m rest ih =>
    have hne : ¬ (m = x) := fun he => h (he ▸ List.mem_cons_self m rest)
    have hrest : x ∉ rest := fun hx => h (List.mem_cons_of_mem m hx)
    simp [removeFirst, hne, ih hrest]

/-- Claim C6: on a live connection-bound object, AddMatchSignal succeeds
and appends the normalized option set to the connection's match list
under interface.member when every option key is in the allowed set;
when some key is outside it, the call fails with an
unsupported-match-type error naming such a key and leaves the match
table unchanged. -/
theorem addMatchSignal_validation (exp : String → String → String)
    (t : TestBusObject) (c : TestBusConnection) (iface member : String)
    (options : List (String × String)) (hlive : t.check = true)
    (hconn : t.conn = some c) :
    ((dbusMatchOptionMap options).all
        (fun kv => isAllowedMatchKey kv.1) = true →
      TestBusObject.AddMatchSignal exp t iface member options =
        some (matchCallResult exp "AddMatch" none,
          { t with conn := some { c with
              matchTable := mapSet c.matchTable (iface ++ "." ++ member)
                  (mapGetD c.matchTable (iface ++ "." ++ member) ++
                    [dbusMatchOptionMap options]) } })) ∧
    ((dbusMatchOptionMap options).all
        (fun kv => isAllowedMatchKey kv.1) = false →
      ∃ k v : String, (k, v) ∈ dbusMatchOptionMap options ∧
        isAllowedMatchKey k = false ∧
        TestBusObject.AddMatchSignal exp t iface member options =
          some (matchCallResult exp "AddMatch"
            (some ("Unsupported match type: " ++ k)), t)) := by
  constructor
  · intro hall
    have hfind : (dbusMatchOptionMap options).find?
        (fun kv => !isAllowedMatchKey kv.1) = none := by
      apply List.find?_eq_none.mpr
      intro x hx
      have hx2 := List.all_eq_true.mp hall x hx
      simp [hx2]
    simp [TestBusObject.AddMatchSignal, hlive, hfind, hconn]
  · intro hall
    cases hfind : (dbusMatchOptionMap options).find?
        (fun kv => !isAllowedMatchKey kv.1) with
    | none =>
      exfalso
      have hno := List.find?_eq_none.mp hfind
      have : (dbusMatchOptionMap options).all
          (fun kv => isAllowedMatchKey kv.1) = true := by
        apply List.all_eq_true.mpr
        intro x hx
        have := hno x hx
        simpa using this
      rw [this] at hall
      cases hall
    | some kv =>
      have hmem : kv ∈ dbusMatchOptionMap options :=
        List.mem_of_find?_eq_some hfind
      have hbad : isAllowedMatchKey kv.1 = false := by
        have := List.find?_some hfind
        simpa using this
      refine ⟨kv.1, kv.2, ?_, hbad, ?_⟩
      · simpa using hmem
      · simp [TestBusObject.AddMatchSignal, hlive, hfind]

/-- Witness for C6: a concrete allowed option set is appended, and a
concrete disallowed key is rejected without touching the match table. -/
theorem addMatchSignal_validation_witness :
    (TestBusObject.AddMatchSignal expand t0 "i" "m" [("path", "/p")] =
      some (matchCallResult expand "AddMatch" none,
        { t0 with conn := some { liveConn with
            matchTable := [("i.m", [[("path", "/p")]])] } })) ∧
    (∃ k v : String, (k, v) ∈ dbusMatchOptionMap [("interface", "x")] ∧
      isAllowedMatchKey k = false ∧
      TestBusObject.AddMatchSignal expand t0 "i" "m" [("interface", "x")] =
        some (matchCallResult expand "AddMatch"
          (some ("Unsupported match type: " ++ k)), t0)) :=
  ⟨(addMatchSignal_validation expand t0 liveConn "i" "m" [("path", "/p")]
      rfl rfl).1 (by decide),
   (addMatchSignal_validation expand t0 liveConn "i" "m" [("interface", "x")]
      rfl rfl).2 (by decide)⟩

/-- Claim C7: on a live connection-bound object, AddMatchSignal followed
by RemoveMatchSignal with the identical option set succeeds, removing
the first structurally equal entry and restoring the match list for
interface.member; a second RemoveMatchSignal with the same option set,
with no other matching entry present, fails with a match-not-found
error and leaves the object unchanged. -/
theorem addRemoveMatchSignal_roundtrip (exp : String → String → String)
    (t : TestBusObject) (c : TestBusConnection) (iface member : String)
    (options : List (String × String)) (hlive : t.check = true)
    (hconn : t.conn = some c)
    (hval : (dbusMatchOptionMap options).all
      (fun kv => isAllowedMatchKey kv.1) = true)
    (hnotin : dbusMatchOptionMap options ∉
      mapGetD c.matchTable (iface ++ "." ++ member)) :
    ∃ t1 t2 : TestBusObject,
      TestBusObject.AddMatchSignal exp t iface member options =
        some (matchCallResult exp "AddMatch" none, t1) ∧
      TestBusObject.RemoveMatchSignal exp t1 iface member options =
        some (matchCallResult exp "RemoveMatch" none, t2) ∧
      (∃ c2 : TestBusConnection, t2.conn = some c2 ∧
        mapGetD c2.matchTable (iface ++ "." ++ member) =
          mapGetD c.matchTable (iface ++ "." ++ member)) ∧
      TestBusObject.RemoveMatchSignal exp t2 iface member options =
        some (matchCallResult exp "RemoveMatch" (some "Match not found"),
          t2) := by
  refine ⟨{ t with conn := some { c with
      matchTable := mapSet c.matchTable (iface ++ "." ++ member)
          (mapGetD c.matchTable (iface ++ "." ++ member) ++
            [dbusMatchOptionMap options]) } },
    { t with conn := some { c with
      matchTable := mapSet
          (mapSet c.matchTable (iface ++ "." ++ member)
            (mapGetD c.matchTable (iface ++ "." ++ member) ++
              [dbusMatchOptionMap options]))
          (iface ++ "." ++ member)
          (mapGetD c.matchTable (iface ++ "." ++ member)) } },
    ?_, ?_, ?_, ?_⟩
  · exact (addMatchSignal_validation exp t c iface member options hlive
      hconn).1 hval
  · have hl1 : TestBusObject.check { t with conn := some { c with
        matchTable := mapSet c.matchTable (iface ++ "." ++ member)
            (mapGetD c.matchTable (iface ++ "." ++ member) ++
              [dbusMatchOptionMap options]) } } = true := by
      rw [check_conn_matchTable t c _ hconn]
      exact hlive
    have hms : mapGetD
        (mapSet c.matchTable (iface ++ "." ++ member)
          (mapGetD c.matchTable (iface ++ "." ++ member) ++
            [dbusMatchOptionMap options]))
        (iface ++ "." ++ member) =
        mapGetD c.matchTable (iface ++ "." ++ member) ++
          [dbusMatchOptionMap options] := by
      simp [mapGetD, mapGet_mapSet_self]
    have hrem := removeFirst_append_self
      (mapGetD c.matchTable (iface ++ "." ++ member))
      (dbusMatchOptionMap options) hnotin
    simp [TestBusObject.RemoveMatchSignal, hl1, hms, hrem]
  · refine ⟨_, rfl, ?_⟩
    simp [mapGetD, mapGet_mapSet_self]
  · have hl2 : TestBusObject.check { t with conn := some { c with
        matchTable := mapSet
            (mapSet c.matchTable (iface ++ "." ++ member)
              (mapGetD c.matchTable (iface ++ "." ++ member) ++
                [dbusMatchOptionMap options]))
            (iface ++ "." ++ member)
            (mapGetD c.matchTable (iface ++ "." ++ member)) } } = true := by
      rw [check_conn_matchTable t c _ hconn]
      exact hlive
    have hms2 : mapGetD
        (mapSet
          (mapSet c.matchTable (iface ++ "." ++ member)
            (mapGetD c.matchTable (iface ++ "." ++ member) ++
              [dbusMatchOptionMap options]))
          (iface ++ "." ++ member)
          (mapGetD c.matchTable (iface ++ "." ++ member)))
        (iface ++ "." ++ member) =
        mapGetD c.matchTable (iface ++ "." ++ member) := by
      simp [mapGetD, mapGet_mapSet_self]
    have hrem2 := removeFirst_eq_none
      (mapGetD c.matchTable (iface ++ "." ++ member))
      (dbusMatchOptionMap options) hnotin
    simp [TestBusObject.RemoveMatchSignal, hl2, hms2, hrem2]

/-- Witness for C7 at a concrete live connection-bound object. -/
theorem addRemoveMatchSignal_roundtrip_witness :
    ∃ t1 t2 : TestBusObject,
      TestBusObject.AddMatchSignal expand t0 "i" "m" [("path", "/p")] =
        some (matchCallResult expand "AddMatch" none, t1) ∧
      TestBusObject.RemoveMatchSignal expand t1 "i" "m" [("path", "/p")] =
        some (matchCallResult expand "RemoveMatch" none, t2) ∧
      (∃ c2 : TestBusConnection, t2.conn = some c2 ∧
        mapGetD c2.matchTable ("i" ++ "." ++ "m") =
          mapGetD liveConn.matchTable ("i" ++ "." ++ "m")) ∧
      TestBusObject.RemoveMatchSignal expand t2 "i" "m" [("path", "/p")] =
        some (matchCallResult expand "RemoveMatch" (some "Match not found"),
          t2) :=
  addRemoveMatchSignal_roundtrip expand t0 liveConn "i" "m" [("path", "/p")]
    rfl rfl (by decide) (by decide)

/-- Counterexample to C8 as stated: On performs no liveness check, so
invoking it on an object whose owning service has been unregistered
completes normally and registers the handler, instead of terminating
abruptly. -/
theorem dead_object_On_succeeds_cex :
    TestBusObject.check tDead = false ∧
    (TestBusObject.On expand tDead "Ping" h0).calls =
      [("test.Ping", h0)] :=
  ⟨rfl, rfl⟩

/-- Claim C8 (amended): every public operation that performs the
liveness check — Call, CallWithContext, GetProperty, SetProperty,
AddMatchSignal, RemoveMatchSignal, Destination, Path, and the deferred
call made by Go — terminates abruptly on an object whose service is
unregistered or whose connection is closed; On and Emit perform no
check and complete normally, and Go itself still returns a nil handle
immediately, its abrupt termination happening only in the deferred
call. -/
theorem dead_object_checked_ops_panic (exp : String → String → String)
    (t : TestBusObject) (m p iface member n : String) (h : Handler)
    (flags : Nat) (args : List Value) (v : Value) (sig : Bool)
    (options : List (String × String)) (hdead : t.check = false) :
    TestBusObject.Call exp t m flags args = none ∧
    TestBusObject.CallWithContext exp t () m flags args = none ∧
    TestBusObject.GetProperty t p = none ∧
    TestBusObject.SetProperty exp t p v sig = none ∧
    TestBusObject.AddMatchSignal exp t iface member options = none ∧
    TestBusObject.RemoveMatchSignal exp t iface member options = none ∧
    TestBusObject.Destination t = none ∧
    TestBusObject.Path t = none ∧
    (TestBusObject.Go exp t m flags args).1 = none ∧
    (TestBusObject.Go exp t m flags args).2.result = none ∧
    TestBusObject.On exp t m h =
      { t with calls := mapSet t.calls (exp t.dest m) h } ∧
    TestBusObject.Emit exp t n args =
      { name := exp t.dest n, svcId := t.svc.id, path := t.path,
        args := args } := by
  refine ⟨?_, ?_, ?_, ?_, ?_, ?_, ?_, ?_, rfl, ?_, rfl, rfl⟩ <;>
    simp [TestBusObject.Call, TestBusObject.CallWithContext,
      TestBusObject.GetProperty, TestBusObject.SetProperty,
      TestBusObject.AddMatchSignal, TestBusObject.RemoveMatchSignal,
      TestBusObject.Destination, TestBusObject.Path, TestBusObject.Go,
      hdead]

/-- Witness for the amended C8 at a concrete dead object. -/
theorem dead_object_checked_ops_panic_witness :
    TestBusObject.Call expand tDead "Ping" 0 [] = none ∧
    TestBusObject.CallWithContext expand tDead () "Ping" 0 [] = none ∧
    TestBusObject.GetProperty tDead "p" = none ∧
    TestBusObject.SetProperty expand tDead "p" (Value.int 1) true = none ∧
    TestBusObject.AddMatchSignal expand tDead "i" "m" [] = none ∧
    TestBusObject.RemoveMatchSignal expand tDead "i" "m" [] = none ∧
    TestBusObject.Destination tDead = none ∧
    TestBusObject.Path tDead = none ∧
    (TestBusObject.Go expand tDead "Ping" 0 []).1 = none ∧
    (TestBusObject.Go expand tDead "Ping" 0 []).2.result = none ∧
    TestBusObject.On expand tDead "Ping" h0 =
      { tDead with calls := mapSet tDead.calls (expand tDead.dest "Ping") h0 } ∧
    TestBusObject.Emit expand tDead "Sig" [] =
      { name := expand tDead.dest "Sig", svcId := tDead.svc.id,
        path := tDead.path, args := [] } :=
  dead_object_checked_ops_panic expand tDead "Ping" "p" "i" "m" "Sig" h0 0 []
    (Value.int 1) true [] rfl

/-- Claim C10: for an object obtained directly from a service, bound to
no connection, the liveness check consults only the service's
registration, so with a registered service its checked operations
complete and no closed connection can make them terminate abruptly,
while for a connection-bound object the check additionally requires the
connection to be open. -/
theorem unbound_check_service_only (exp : String → String → String)
    (t : TestBusObject) (m p : String) (flags : Nat) (args : List Value)
    (v : Value) (sig : Bool) :
    (t.conn = none → t.check = t.svc.registered) ∧
    (t.conn = none → t.svc.registered = true →
      (TestBusObject.Call exp t m flags args).isSome = true ∧
      (TestBusObject.GetProperty t p).isSome = true ∧
      (TestBusObject.SetProperty exp t p v sig).isSome = true ∧
      (TestBusObject.Destination t).isSome = true ∧
      (TestBusObject.Path t).isSome = true) ∧
    (∀ c : TestBusConnection, t.conn = some c →
      t.check = (t.svc.registered && !c.closed)) := by
  refine ⟨?_, ?_, ?_⟩
  · intro hn
    simp [TestBusObject.check, hn, TestBusService.checkRegistered]
  · intro hn hreg
    have hc : t.check = true := by
      simp [TestBusObject.check, hn, TestBusService.checkRegistered, hreg]
    refine ⟨?_, ?_, ?_, ?_, ?_⟩ <;>
      simp [TestBusObject.Call, TestBusObject.GetProperty,
        TestBusObject.SetProperty, TestBusObject.Destination,
        TestBusObject.Path, hc]
  · intro c hsc
    simp [TestBusObject.check, hsc, TestBusService.checkRegistered,
      TestBusConnection.checkOpen]

/-- Witness for C10 at a concrete service-obtained unbound object, and a
concrete connection-bound object for the bound clause. -/
theorem unbound_check_service_only_witness :
    tUnbound.check = tUnbound.svc.registered ∧
    (TestBusObject.Call expand tUnbound "Ping" 0 []).isSome = true ∧
    (TestBusObject.GetProperty tUnbound "p").isSome = true ∧
    (TestBusObject.SetProperty expand tUnbound "p" (Value.int 1)
      false).isSome = true ∧
    (TestBusObject.Destination tUnbound).isSome = true ∧
    (TestBusObject.Path tUnbound).isSome = true ∧
    t0.check = (t0.svc.registered && !liveConn.closed) :=
  ⟨(unbound_check_service_only expand tUnbound "Ping" "p" 0 []
      (Value.int 1) false).1 rfl,
   ((unbound_check_service_only expand tUnbound "Ping" "p" 0 []
      (Value.int 1) false).2.1 rfl rfl).1,
   ((unbound_check_service_only expand tUnbound "Ping" "p" 0 []
      (Value.int 1) false).2.1 rfl rfl).2.1,
   ((unbound_check_service_only expand tUnbound "Ping" "p" 0 []
      (Value.int 1) false).2.1 rfl rfl).2.2.1,
   ((unbound_check_service_only expand tUnbound "Ping" "p" 0 []
      (Value.int 1) false).2.1 rfl rfl).2.2.2.1,
   ((unbound_check_service_only expand tUnbound "Ping" "p" 0 []
      (Value.int 1) false).2.1 rfl rfl).2.2.2.2,
   (unbound_check_service_only expand t0 "Ping" "p" 0 []
      (Value.int 1) false).2.2 liveConn rfl⟩
